import Mathlib

/-!
Shallow embedding of the FuelCostHedgeEngine repository
(`genera_scraper.py`, `genera_plants_scraper.py`, `pr_grid_logger.py`)
and proofs about the claims of its specification.

Conventions of the embedding:
* Python strings are `List Char`; `str` converts a Lean string literal.
* Python `float` values produced by the numeric normalizer are modelled as `ℚ`:
  every number the pipeline parses is a finite decimal literal, and all the
  spec's example values are exact decimals.  Overflow/rounding of IEEE floats
  plays no role in any claim.
* Fallible Python code returns `Option`.
* The regular expressions of the source are embedded as explicit scanners whose
  behaviour on the relevant character classes coincides with the Python `re`
  semantics (leftmost match, greedy/lazy quantifiers as noted at each
  definition).  `\d` is modelled as the ASCII digits and `\s` as the ASCII
  whitespace characters, which is what the scraped pages contain.
-/

set_option maxRecDepth 8000

namespace FuelHedge

/-- ASCII decimal digit, the model of the regex class `\d` for this input
domain. -/
def isPyDigit (c : Char) : Bool :=
  '0' ≤ c && c ≤ '9'

/-- Python whitespace (`str.strip`, regex `\s`): space, tab, newline, carriage
return, vertical tab, form feed. -/
def isPySpace (c : Char) : Bool :=
  c == ' ' || c == '\t' || c == '\n' || c == '\r' || c == '\x0b' || c == '\x0c'

/-- Lower-casing as used by `str.lower()` / `re.IGNORECASE`, restricted to the
characters occurring in this repository's label vocabulary (ASCII letters plus
the accented Spanish capitals). -/
def lowerChar (c : Char) : Char :=
  if 'A' ≤ c ∧ c ≤ 'Z' then Char.ofNat (c.toNat + 32)
  else if c = 'Á' then 'á'
  else if c = 'É' then 'é'
  else if c = 'Í' then 'í'
  else if c = 'Ó' then 'ó'
  else if c = 'Ú' then 'ú'
  else if c = 'Ñ' then 'ñ'
  else c

/-- Convert a Lean string literal to the `List Char` representation used for
Python strings throughout this development. -/
def str (s : String) : List Char :=
  s.toList

/-- Python `s.strip()`: drop leading and trailing whitespace. -/
def pyStrip (cs : List Char) : List Char :=
  ((cs.dropWhile isPySpace).reverse.dropWhile isPySpace).reverse

/-- Python `s.strip(chars)`: drop leading and trailing characters from the
given set. -/
def pyStripChars (set : List Char) (cs : List Char) : List Char :=
  ((cs.dropWhile (set.contains ·)).reverse.dropWhile (set.contains ·)).reverse

/-- Python `s.replace(a, "")`. -/
def removeAll (a : Char) (cs : List Char) : List Char :=
  cs.filter (fun c => c != a)

/-- Python `s.replace(a, b)` for single characters. -/
def replaceAll (a b : Char) (cs : List Char) : List Char :=
  cs.map (fun c => if c = a then b else c)

/-- Numeric value of a digit string (most significant first). -/
def digitsVal (ds : List Char) : ℕ :=
  ds.foldl (fun a c => 10 * a + (c.toNat - 48)) 0

/-- Exponent part of a Python float literal: optional sign followed by a
nonempty digit string reaching the end of the input. -/
def parseExpPart (cs : List Char) : Option ℤ :=
  match cs with
  | '+' :: r => if r ≠ [] ∧ r.all isPyDigit then some (digitsVal r : ℤ) else none
  | '-' :: r => if r ≠ [] ∧ r.all isPyDigit then some (-(digitsVal r : ℤ)) else none
  | r => if r ≠ [] ∧ r.all isPyDigit then some (digitsVal r : ℤ) else none

/-- Parts of the unsigned body of a Python float literal — integer-part value,
fraction value, fraction length and optional exponent.  The body is integer
digits, an optional dot with fraction digits (at least one digit overall) and
an optional `e`/`E` exponent; anything else fails. -/
def pyFloatParts (cs : List Char) : Option (ℕ × ℕ × ℕ × Option ℤ) :=
  let ip := cs.takeWhile isPyDigit
  let r1 := cs.dropWhile isPyDigit
  match r1 with
  | [] => if ip.isEmpty then none else some (digitsVal ip, 0, 0, none)
  | '.' :: r2 =>
    let fp := r2.takeWhile isPyDigit
    let r3 := r2.dropWhile isPyDigit
    if ip.isEmpty && fp.isEmpty then none
    else
      match r3 with
      | [] => some (digitsVal ip, digitsVal fp, fp.length, none)
      | 'e' :: r4 => (parseExpPart r4).map (fun e => (digitsVal ip, digitsVal fp, fp.length, some e))
      | 'E' :: r4 => (parseExpPart r4).map (fun e => (digitsVal ip, digitsVal fp, fp.length, some e))
      | _ => none
  | 'e' :: r4 =>
    if ip.isEmpty then none
    else (parseExpPart r4).map (fun e => (digitsVal ip, 0, 0, some e))
  | 'E' :: r4 =>
    if ip.isEmpty then none
    else (parseExpPart r4).map (fun e => (digitsVal ip, 0, 0, some e))
  | _ => none

/-- Rational value denoted by float-literal parts. -/
def ratOfParts : ℕ × ℕ × ℕ × Option ℤ → ℚ
  | (i, f, l, e) => ((i : ℚ) + (f : ℚ) / (10 : ℚ) ^ l) * (10 : ℚ) ^ (e.getD 0)

/-- Model of the Python builtin `float(s)` on strings (`None` instead of the
`ValueError`): surrounding whitespace is allowed, then an optional sign and a
decimal literal with optional exponent.  The special forms `inf`/`nan` and
underscore digit separators never occur in this pipeline and are not
modelled. -/
def pyFloat (s : List Char) : Option ℚ :=
  match pyStrip s with
  | '+' :: r => (pyFloatParts r).map ratOfParts
  | '-' :: r => (pyFloatParts r).map (fun p => -(ratOfParts p))
  | r => (pyFloatParts r).map ratOfParts

/-- Separator normalization shared by both `_to_float` implementations
(`genera_scraper.py` lines 44-52 and `genera_plants_scraper.py` lines 29-33,
whose bodies are identical): strip, then if both comma and dot occur treat the
comma as a thousands separator and remove it; if only the comma occurs remove
dots and turn the comma into the decimal point. -/
def toFloatNormalize (numStr : List Char) : List Char :=
  let s := pyStrip numStr
  if s.contains ',' && s.contains '.' then removeAll ',' s
  else if s.contains ',' then replaceAll ',' '.' (removeAll '.' s)
  else s

/-- Embedding of `genera_scraper._to_float` (`Optional[str]` argument; `None`
and the empty string are falsy and give `None`). -/
def toFloat : Option (List Char) → Option ℚ
  | none => none
  | some cs => if cs.isEmpty then none else pyFloat (toFloatNormalize cs)

/-- Embedding of `genera_plants_scraper._to_float` (plain string argument,
same body). -/
def toFloatPlants (cs : List Char) : Option ℚ :=
  if cs.isEmpty then none else pyFloat (toFloatNormalize cs)

/-! ### Label matching and fuel-mix extraction (`genera_scraper.py`)

The compiled pattern
`FUEL_REGEX = (Gas\s*Natural|Carb[oó]n|Bunker\s*/?\s*Di[ée]sel|Renovables|Otros)\s*[:\-]?\s*([\d\.,]+)\s*%`
(case-insensitive) is embedded as an explicit scanner.  All character classes
involved (`\s`, `[\d\.,]`, the literal letters, `:`/`-`, `%`) are pairwise
disjoint where adjacent in the pattern, so the greedy quantifiers need no
backtracking and maximal-munch scanning coincides with the `re` semantics;
`finditer` is the usual leftmost, non-overlapping scan. -/

/-- Characters matched by the regex class `[\d\.,]`. -/
def isNumChar (c : Char) : Bool :=
  isPyDigit c || c == '.' || c == ','

/-- Case-insensitive literal match; returns the verbatim consumed text and the
rest of the input. -/
def matchLit : List Char → List Char → Option (List Char × List Char)
  | [], cs => some ([], cs)
  | _ :: _, [] => none
  | l :: ls, c :: cs =>
    if lowerChar c = lowerChar l then
      (matchLit ls cs).map (fun g => (c :: g.1, g.2))
    else none

/-- Case-insensitive single-character class match (for `[oó]`, `[ée]`). -/
def matchClass (opts : List Char) : List Char → Option (List Char × List Char)
  | [] => none
  | c :: cs => if opts.contains (lowerChar c) then some ([c], cs) else none

/-- The alternative `Gas\s*Natural`. -/
def matchGasNatural (cs : List Char) : Option (List Char × List Char) :=
  (matchLit (str "gas") cs).bind fun g1 =>
    let sp := g1.2.takeWhile isPySpace
    (matchLit (str "natural") (g1.2.dropWhile isPySpace)).map fun g2 =>
      (g1.1 ++ sp ++ g2.1, g2.2)

/-- The alternative `Carb[oó]n`. -/
def matchCarbon (cs : List Char) : Option (List Char × List Char) :=
  (matchLit (str "carb") cs).bind fun g1 =>
    (matchClass ['o', 'ó'] g1.2).bind fun g2 =>
      (matchLit (str "n") g2.2).map fun g3 =>
        (g1.1 ++ g2.1 ++ g3.1, g3.2)

/-- The alternative `Bunker\s*/?\s*Di[ée]sel`. -/
def matchBunkerDiesel (cs : List Char) : Option (List Char × List Char) :=
  (matchLit (str "bunker") cs).bind fun g1 =>
    let sp1 := g1.2.takeWhile isPySpace
    let r1 := g1.2.dropWhile isPySpace
    let sl : List Char × List Char := match r1 with
      | '/' :: r => (['/'], r)
      | r => ([], r)
    let sp2 := sl.2.takeWhile isPySpace
    (matchLit (str "di") (sl.2.dropWhile isPySpace)).bind fun g2 =>
      (matchClass ['é', 'e'] g2.2).bind fun g3 =>
        (matchLit (str "sel") g3.2).map fun g4 =>
          (g1.1 ++ sp1 ++ sl.1 ++ sp2 ++ g2.1 ++ g3.1 ++ g4.1, g4.2)

/-- Group 1 of `FUEL_REGEX`: the label alternatives, tried in pattern order
(their first letters are distinct, so at most one can match at a
position). -/
def fuelLabelMatch (cs : List Char) : Option (List Char × List Char) :=
  (matchGasNatural cs) <|> (matchCarbon cs) <|> (matchBunkerDiesel cs) <|>
    (matchLit (str "renovables") cs) <|> (matchLit (str "otros") cs)

/-- One attempt of the full `FUEL_REGEX` at the current position: label,
`\s*`, optional `:` or `-`, `\s*`, the captured number (`[\d\.,]+`), `\s*`,
`%`.  Returns `((label group, number group), rest after the match)`. -/
def fuelMatchAt (cs : List Char) : Option ((List Char × List Char) × List Char) :=
  (fuelLabelMatch cs).bind fun lbl =>
    let r1 := lbl.2.dropWhile isPySpace
    let r2 : List Char := match r1 with
      | ':' :: r => r
      | '-' :: r => r
      | r => r
    let r3 := r2.dropWhile isPySpace
    let num := r3.takeWhile isNumChar
    if num.isEmpty then none
    else
      match (r3.dropWhile isNumChar).dropWhile isPySpace with
      | '%' :: r4 => some ((lbl.1, num), r4)
      | _ => none

/-- The scan of `FUEL_REGEX.finditer`: leftmost matches, continuing after each
match; the fuel argument bounds the recursion (each step consumes at least one
character). -/
def fuelFinditerAux : ℕ → List Char → List (List Char × List Char)
  | 0, _ => []
  | _ + 1, [] => []
  | n + 1, c :: rest =>
    match fuelMatchAt (c :: rest) with
    | some (m, r) => m :: fuelFinditerAux n r
    | none => fuelFinditerAux n rest

/-- All `(label group, number group)` matches of `FUEL_REGEX` in text order. -/
def fuelFinditer (cs : List Char) : List (List Char × List Char) :=
  fuelFinditerAux cs.length cs

/-- The substitution `re.sub(r"\s*/\s*", " ", label)` of `parse_fuel_mix`:
each slash together with the whitespace around it becomes a single space.  The
fuel argument bounds the recursion. -/
def subSlashAux : ℕ → List Char → List Char
  | 0, cs => cs
  | _ + 1, [] => []
  | n + 1, c :: rest =>
    match (c :: rest).dropWhile isPySpace with
    | '/' :: r2 => ' ' :: subSlashAux n (r2.dropWhile isPySpace)
    | _ => c :: subSlashAux n rest

/-- Label normalization of `parse_fuel_mix` lines 145-147: strip and
lower-case the captured group, collapse slashes, fold the accents `ó`/`é`,
strip again. -/
def normFuelLabel (g : List Char) : List Char :=
  let l1 := (pyStrip g).map lowerChar
  let l2 := subSlashAux l1.length l1
  pyStrip (replaceAll 'é' 'e' (replaceAll 'ó' 'o' l2))

/-- The `LABEL_NORMALIZE` table (`genera_scraper.py` lines 117-125), in source
order. -/
def labelNormalizeTable : List (List Char × String) :=
  [(str "gas natural", "gas_natural"),
   (str "carbón", "carbon"),
   (str "carbon", "carbon"),
   (str "bunker diésel", "bunker_diesel"),
   (str "bunker diesel", "bunker_diesel"),
   (str "renovables", "renovables"),
   (str "otros", "otros")]

/-- Python `LABEL_NORMALIZE.get(label, None)`. -/
def lookupLabel (l : List Char) : Option String :=
  (labelNormalizeTable.find? (fun p => p.1 == l)).map (·.2)

/-- Canonical key for a captured fuel label: normalization followed by the
table lookup. -/
def canonFuelLabel (g : List Char) : Option String :=
  lookupLabel (normFuelLabel g)

/-! ### Python dict operations

The output mappings are Python dicts, modelled as insertion-ordered
association lists. -/

/-- Python `d[k] = v`: replace the value of an existing key in place, else
append. -/
def dictSet : List (String × Option ℚ) → String → Option ℚ → List (String × Option ℚ)
  | [], k, v => [(k, v)]
  | (k', v') :: d, k, v =>
    if k' = k then (k, v) :: d else (k', v') :: dictSet d k v

/-- Python `k in d`. -/
def dictHasKey : List (String × Option ℚ) → String → Bool
  | [], _ => false
  | p :: d, k => p.1 == k || dictHasKey d k

/-- Python `d.setdefault(k, v)` (only its effect on the dict). -/
def dictSetdefault (d : List (String × Option ℚ)) (k : String) (v : Option ℚ) :
    List (String × Option ℚ) :=
  if dictHasKey d k then d else d ++ [(k, v)]

/-- Python `d.get(k)`: the stored value, or `None` when the key is absent. -/
def pyGet : List (String × Option ℚ) → String → Option ℚ
  | [], _ => none
  | p :: d, k => if p.1 = k then p.2 else pyGet d k

/-- Presence-aware lookup: `some v` exactly when the key is present with
stored value `v` (used to state that a key is present and bound to null,
as opposed to being absent). -/
def dictGet : List (String × Option ℚ) → String → Option (Option ℚ)
  | [], _ => none
  | p :: d, k => if p.1 = k then some p.2 else dictGet d k

/-- The keys of a dict, in insertion order. -/
def dictKeys (d : List (String × Option ℚ)) : List String :=
  d.map (·.1)

/-- The dict literal initializing `out` in `parse_fuel_mix` (lines
137-143). -/
def fuelInitDict : List (String × Option ℚ) :=
  [("gas_natural", none), ("carbon", none), ("bunker_diesel", none),
   ("renovables", none), ("otros", none)]

/-- Loop body of `parse_fuel_mix` lines 144-150: canonicalize the captured
label; on success store `_to_float` of the captured number (unconditionally
overwriting), otherwise skip the match. -/
def applyFuelMatch (d : List (String × Option ℚ)) (m : List Char × List Char) :
    List (String × Option ℚ) :=
  match canonFuelLabel m.1 with
  | some k => dictSet d k (toFloat (some m.2))
  | none => d

/-- Embedding of `parse_fuel_mix` (`genera_scraper.py` lines 135-151). -/
def parseFuelMix (text : List Char) : List (String × Option ℚ) :=
  (fuelFinditer text).foldl applyFuelMatch fuelInitDict

/-! ### Stage-1 text search (`_search_number_after_label`, `_search_timestamp`)

The pattern `{label}(?:[^\n\r]*?\n|\s+)*?([\d\.,]+)\s*{unit}` (IGNORECASE) is
embedded as the backtracking search it denotes: after a label occurrence the
lazy block repetition is explored depth-first — number-and-unit first, then
one more block, where a block is either the shortest `[^\n\r]*?\n` (everything
up to and including the first newline, which must not be preceded by a
carriage return) or a nonempty whitespace run `\s+` tried longest first.
`re.search` scans label occurrences from the left. -/

/-- Attempt `([\d\.,]+)\s*{unit}` at the current position; returns the
captured number group. -/
def tryNumUnit (unit : List Char) (cs : List Char) : Option (List Char) :=
  let num := cs.takeWhile isNumChar
  if num.isEmpty then none
  else
    match matchLit unit ((cs.dropWhile isNumChar).dropWhile isPySpace) with
    | some _ => some num
    | none => none

/-- The only possible `[^\n\r]*?\n` block at the current position: the suffix
after the first newline, provided no carriage return precedes it. -/
def nlSplit : List Char → Option (List Char)
  | [] => none
  | '\n' :: r => some r
  | '\r' :: _ => none
  | _ :: r => nlSplit r

/-- Successor positions after one more skip block, in regex alternation order:
the newline block first, then the whitespace runs longest first. -/
def nextBlocks (cs : List Char) : List (List Char) :=
  (match nlSplit cs with
   | some r => [r]
   | none => []) ++
    (List.range (cs.takeWhile isPySpace).length).map
      (fun i => cs.drop ((cs.takeWhile isPySpace).length - i))

/-- Depth-first exploration of the lazy skip, on an explicit stack of pending
positions; the fuel bounds the finite backtracking tree. -/
def lazySkipDFS (unit : List Char) : ℕ → List (List Char) → Option (List Char)
  | 0, _ => none
  | _ + 1, [] => none
  | n + 1, cs :: stk =>
    match tryNumUnit unit cs with
    | some g => some g
    | none => lazySkipDFS unit n (nextBlocks cs ++ stk)

/-- Fuel that dominates the size of the backtracking tree over an input of the
given length (every block consumes at least one character, and at most
`length + 1` blocks are possible at a position). -/
def lazyFuel (n : ℕ) : ℕ :=
  (n + 2) ^ (n + 2)

/-- Scan of `re.search` for the full pattern: try every label occurrence from
the left; at each, run the lazy skip; on failure resume one character further
on. -/
def searchAux (label unit : List Char) : List Char → Option (List Char)
  | [] => none
  | c :: rest =>
    match matchLit label (c :: rest) with
    | some g =>
      match lazySkipDFS unit (lazyFuel g.2.length) [g.2] with
      | some num => some num
      | none => searchAux label unit rest
    | none => searchAux label unit rest

/-- Embedding of `_search_number_after_label` (`genera_scraper.py` lines
58-65): on a match, `_to_float` of the captured group (which may itself be
`None`), else `None`. -/
def searchNumberAfterLabel (pageText label unit : List Char) : Option ℚ :=
  match searchAux label unit pageText with
  | some num => toFloat (some num)
  | none => none

/-- Group of `Actualizado\s*([^\n\r]+)` directly after a label occurrence,
stripped: greedily skip whitespace; if a non-whitespace character follows, the
group is the run of non-newline characters from there; at the end of input the
regex backtracks into the whitespace run, whose last non-newline character
(if any) becomes the group, which strips to the empty string. -/
def searchTimestampAt (after : List Char) : Option (List Char) :=
  match after.dropWhile isPySpace with
  | c :: rest =>
    some (pyStrip ((c :: rest).takeWhile (fun x => !(x == '\n' || x == '\r'))))
  | [] =>
    if (after.takeWhile isPySpace).any (fun x => !(x == '\n' || x == '\r')) then some []
    else none

/-- Leftmost-occurrence scan for the timestamp pattern. -/
def searchTimestampAux (label : List Char) : List Char → Option (List Char)
  | [] => none
  | c :: rest =>
    match matchLit label (c :: rest) with
    | some g =>
      match searchTimestampAt g.2 with
      | some t => some t
      | none => searchTimestampAux label rest
    | none => searchTimestampAux label rest

/-- Embedding of `_search_timestamp` (`genera_scraper.py` lines 67-73). -/
def searchTimestamp (text : List Char) : Option (List Char) :=
  searchTimestampAux (str "Actualizado") text

/-! ### The `scrape_once` extraction pipeline (`genera_scraper.py`)

Browser I/O is external: the captured page body texts, the body text captured
after clicking "Porcentajes", whether the fallback navigation succeeded, and
the in-page DOM-proximity helper (label, unit ↦ captured string or null,
with evaluation failures collapsed to null) are parameters, as is the
`datetime.now` timestamp. -/

/-- `DETALLE_LABELS` (lines 17-22). -/
def detalleLabels : List (List Char × List Char × String) :=
  [(str "Generación Total del Sistema", str "MW", "generacion_total_MW"),
   (str "Capacidad Disponible", str "MW", "capacidad_disponible_MW"),
   (str "Reserva en Rotación", str "MW", "reserva_en_rotacion_MW"),
   (str "Reserva Operacional", str "MW", "reserva_operacional_MW")]

/-- `PRONOSTICO_LABELS` (lines 24-27). -/
def pronosticoLabels : List (List Char × List Char × String) :=
  [(str "Demanda Próxima Hora", str "MW", "proxima_hora_MW"),
   (str "Demanda Máxima Registrada Hoy", str "MW", "maxima_hoy_MW")]

/-- `FUEL_LABELS` (lines 30-37; `bunker_diesel` is listed twice, under both
spacing variants of its display label). -/
def fuelLabels : List (List Char × List Char × String) :=
  [(str "Gas Natural", str "%", "gas_natural"),
   (str "Carbón", str "%", "carbon"),
   (str "Bunker/Diésel", str "%", "bunker_diesel"),
   (str "Bunker / Diésel", str "%", "bunker_diesel"),
   (str "Renovables", str "%", "renovables"),
   (str "Otros", str "%", "otros")]

/-- The list `[k for _, _, k in DETALLE_LABELS]`. -/
def detalleKeys : List String :=
  detalleLabels.map (fun s => s.2.2)

/-- The list `[k for _, _, k in PRONOSTICO_LABELS]`. -/
def pronosticoKeys : List String :=
  pronosticoLabels.map (fun s => s.2.2)

/-- `PAGES` (lines 11-14). -/
def pagesList : List String :=
  ["https://genera-pr.com/data-tr", "https://genera-pr.com/data-generacion"]

/-- The three output field groups of `scrape_once`. -/
structure Buckets where
  detalles : List (String × Option ℚ)
  pronostico : List (String × Option ℚ)
  fuelMix : List (String × Option ℚ)

/-- First pass of `scrape_once` (lines 200-214): stage-1 label search for the
detalle and pronostico groups, then `parse_fuel_mix` with `setdefault` over
the `FUEL_LABELS` keys and per-key overwrite of non-null parsed values. -/
def buildBuckets (mergedText : List Char) : Buckets :=
  { detalles := detalleLabels.foldl
      (fun d s => dictSet d s.2.2 (searchNumberAfterLabel mergedText s.1 s.2.1)) []
    pronostico := pronosticoLabels.foldl
      (fun d s => dictSet d s.2.2 (searchNumberAfterLabel mergedText s.1 s.2.1)) []
    fuelMix :=
      let f0 := fuelLabels.foldl (fun d s => dictSetdefault d s.2.2 none) []
      (parseFuelMix mergedText).foldl
        (fun d kv => if kv.2.isSome then dictSet d kv.1 kv.2 else d) f0 }

/-- The bucket routing of lines 220-224 and 241-245, read side: the detalle
bucket when the key is a detalle key, else the pronostico bucket when a
pronostico key, else the fuel-mix bucket. -/
def bucketsPyGet (b : Buckets) (k : String) : Option ℚ :=
  if k ∈ detalleKeys then pyGet b.detalles k
  else if k ∈ pronosticoKeys then pyGet b.pronostico k
  else pyGet b.fuelMix k

/-- The bucket routing, write side (`bucket[key] = val`). -/
def bucketsSet (b : Buckets) (k : String) (v : Option ℚ) : Buckets :=
  if k ∈ detalleKeys then { b with detalles := dictSet b.detalles k v }
  else if k ∈ pronosticoKeys then { b with pronostico := dictSet b.pronostico k v }
  else { b with fuelMix := dictSet b.fuelMix k v }

/-- `DETALLE_LABELS + PRONOSTICO_LABELS + FUEL_LABELS` (line 219). -/
def allLabels : List (List Char × List Char × String) :=
  detalleLabels ++ pronosticoLabels ++ fuelLabels

/-- The `missing` list of lines 218-226: catalog entries whose routed bucket
value is still null. -/
def missingOf (b : Buckets) : List (List Char × List Char × String) :=
  allLabels.filter (fun s => (bucketsPyGet b s.2.2).isNone)

/-- One iteration of the fallback loop (lines 234-247): query the DOM helper,
normalize, and store only when the key is still unresolved and the value is
non-null. -/
def fallbackStep (dom : List Char → List Char → Option (List Char)) (b : Buckets)
    (s : List Char × List Char × String) : Buckets :=
  if (bucketsPyGet b s.2.2).isNone && (toFloat (dom s.1 s.2.1)).isSome then
    bucketsSet b s.2.2 (toFloat (dom s.1 s.2.1))
  else b

/-- Second pass of `scrape_once` (lines 217-249): when the fallback navigation
succeeds, fold the fallback step over the missing entries; an empty missing
list or a failed navigation leaves the buckets unchanged. -/
def applyFallback (ok : Bool) (dom : List Char → List Char → Option (List Char))
    (b : Buckets) : Buckets :=
  if ok then (missingOf b).foldl (fallbackStep dom) b else b

/-- The snapshot value returned by `scrape_once`. -/
structure ScrapeOut where
  scraped_at : String
  updated_label_raw : Option (List Char)
  detalles_generacion : List (String × Option ℚ)
  pronostico_demanda : List (String × Option ℚ)
  fuel_mix_pct : List (String × Option ℚ)
  source_pages : List String

/-- Embedding of the extraction pipeline of `scrape_once` (lines 174-253).
The three successive `mergedText` bindings mirror lines 174, 182 and 186 of
the source: the join of the page texts, the append of the Porcentajes body
text, and the reassignment back to the join of the page texts. -/
def scrapeExtract (scrapedAt : String) (pageTexts : List (List Char))
    (porcentajesText : List Char) (fallbackOk : Bool)
    (dom : List Char → List Char → Option (List Char)) : ScrapeOut :=
  let mergedText := List.intercalate ['\n'] pageTexts
  let mergedText := mergedText ++ '\n' :: porcentajesText
  let mergedText := List.intercalate ['\n'] pageTexts
  let b := buildBuckets mergedText
  let b := applyFallback fallbackOk dom b
  { scraped_at := scrapedAt
    updated_label_raw := searchTimestamp mergedText
    detalles_generacion := b.detalles
    pronostico_demanda := b.pronostico
    fuel_mix_pct := b.fuelMix
    source_pages := pagesList }

/-! ### Plant-level scraping (`genera_plants_scraper.py`)

`MW_RE = ([\d\.,]+)\s*MW\b` (IGNORECASE).  The character classes adjacent in
the pattern are disjoint, so maximal-munch scanning coincides with the `re`
semantics; `\b` after `MW` requires the next character to not be a word
character. -/

/-- Word characters (`\w`) over the character repertoire of these pages:
ASCII letters, digits, underscore and the accented Spanish letters. -/
def isWordChar (c : Char) : Bool :=
  c.isAlpha || isPyDigit c || c == '_' ||
    ['á', 'é', 'í', 'ó', 'ú', 'ñ', 'Á', 'É', 'Í', 'Ó', 'Ú', 'Ñ'].contains c

/-- One attempt of `MW_RE` at the current position: captured number group and
the rest after the match (checking the trailing word boundary). -/
def mwMatchAt (cs : List Char) : Option (List Char × List Char) :=
  let num := cs.takeWhile isNumChar
  if num.isEmpty then none
  else
    match matchLit (str "mw") ((cs.dropWhile isNumChar).dropWhile isPySpace) with
    | some g =>
      match g.2 with
      | [] => some (num, [])
      | c :: r => if isWordChar c then none else some (num, c :: r)
    | none => none

/-- Scan of `MW_RE.finditer`: leftmost matches, continuing after each
match. -/
def mwFinditerAux : ℕ → List Char → List (List Char)
  | 0, _ => []
  | _ + 1, [] => []
  | n + 1, c :: rest =>
    match mwMatchAt (c :: rest) with
    | some (num, r) => num :: mwFinditerAux n r
    | none => mwFinditerAux n rest

/-- All captured number groups of `MW_RE` in text order. -/
def mwFinditer (cs : List Char) : List (List Char) :=
  mwFinditerAux cs.length cs

/-- Embedding of `_extract_mw_values` (`genera_plants_scraper.py` lines
39-45): normalize every captured group, keeping the successfully parsed
values. -/
def extractMwValues (text : List Char) : List ℚ :=
  (mwFinditer text).filterMap toFloatPlants

/-- `MW_RE.search` on a line, returning the text before the match
(`ln[:m.start()]`) together with the captured number group. -/
def mwSearchSplitAux (acc : List Char) : List Char → Option (List Char × List Char)
  | [] => none
  | c :: rest =>
    match mwMatchAt (c :: rest) with
    | some (num, _) => some (acc.reverse, num)
    | none => mwSearchSplitAux (c :: acc) rest

/-- First `MW_RE` match on a line, split into prefix and captured group. -/
def mwSearchSplit (ln : List Char) : Option (List Char × List Char) :=
  mwSearchSplitAux [] ln

/-- Python `str.splitlines` over `\n`, `\r` and `\r\n` (a trailing line break
opens no further line). -/
def splitlinesAux (cur : List Char) : List Char → List (List Char)
  | [] => if cur.isEmpty then [] else [cur.reverse]
  | '\r' :: '\n' :: rest => cur.reverse :: splitlinesAux [] rest
  | '\n' :: rest => cur.reverse :: splitlinesAux [] rest
  | '\r' :: rest => cur.reverse :: splitlinesAux [] rest
  | c :: rest => splitlinesAux (c :: cur) rest

/-- Python `detail_text.splitlines()`. -/
def pySplitlines (cs : List Char) : List (List Char) :=
  splitlinesAux [] cs

/-- Per-unit extraction of `harvest_for` (lines 248-261): for every nonblank
line with an MW match, the value is the normalized first match of the line and
the unit name is the stripped text before it, falling back to
`"{title} unidad"` when empty. -/
def harvestUnits (title : List Char) (detailText : List Char) :
    List (List Char × Option ℚ) :=
  ((pySplitlines detailText).filter (fun ln => !(pyStrip ln).isEmpty)).filterMap
    (fun ln =>
      match mwSearchSplit ln with
      | none => none
      | some (pre, num) =>
        let val := toFloatPlants num
        let name := pyStrip (pyStripChars ['-'] (pyStripChars [':'] (pyStrip pre)))
        some (if name.isEmpty then title ++ str " unidad" else name, val))

/-- `total_mw` of `harvest_for` (lines 244-245): the sum of all normalized MW
values visible in the detail text, or `None` when there are none. -/
def harvestTotalMW (detailText : List Char) : Option ℚ :=
  let vals := extractMwValues detailText
  if vals.isEmpty then none else some vals.sum

/-- The plant reading returned by `harvest_for`. -/
structure PlantReading where
  nombre : List Char
  total_MW : Option ℚ
  unidades : List (List Char × Option ℚ)
deriving DecidableEq

/-- Embedding of the text-processing part of `harvest_for`
(`genera_plants_scraper.py` lines 234-270).  Card location, detail opening and
modal reading are browser I/O; the detail text read from the revealed
modal/panel is the parameter. -/
def harvestFor (title : List Char) (detailText : List Char) : PlantReading :=
  { nombre := title
    total_MW := harvestTotalMW detailText
    unidades := harvestUnits title detailText }

/-! ### The ingestion sink (`pr_grid_logger.py`)

The pieces of the sink that live in external libraries are modelled at their
interface: `json.loads` by the three-way parse outcome (missing file,
unparseable content, parsed payload — the parse is deterministic, so
re-delivery of byte-identical JSON is re-delivery of the same payload); the
`readings` SQLite table by an insertion-ordered list of rows, on which the
`INSERT OR IGNORE` statement of `write_sqlite` appends when no row with the
same `scraped_at_iso` primary key exists and otherwise changes nothing, and
`CREATE TABLE IF NOT EXISTS` is the identity on an existing table; the CSV
file by `none` (not yet created) or the list of data rows below the header
row that `ensure_csv` writes on creation. -/

/-- One row of the `readings` table / CSV log, in the `COLUMNS` order. -/
structure Row where
  scraped_at_iso : List Char
  updated_label_raw : Option (List Char)
  generacion_total_MW : Option ℚ
  capacidad_disponible_MW : Option ℚ
  reserva_en_rotacion_MW : Option ℚ
  reserva_operacional_MW : Option ℚ
  demanda_proxima_hora_MW : Option ℚ
  demanda_maxima_hoy_MW : Option ℚ
  gas_natural_pct : Option ℚ
  carbon_pct : Option ℚ
  bunker_diesel_pct : Option ℚ
  renovables_pct : Option ℚ
  otros_pct : Option ℚ
  source_pages : List Char
deriving DecidableEq

/-- A parsed snapshot payload, at the shape `parse_row` reads: `scraped_at`
may be missing or null (`none`); `updated_label_raw` distinguishes a missing
key (`none`, defaulted to `""`) from an explicit null (`some none`); for the
three field groups and `source_pages` a missing key and an explicit null both
yield the empty mapping/list (`payload.get(k, {}) or {}`), so both are
`none`.  Group values are JSON numbers, already rational (`num` in the source
merely converts to `float`, preserving the value). -/
structure Payload where
  scraped_at : Option (List Char)
  updated_label_raw : Option (Option (List Char))
  detalles_generacion : Option (List (String × Option ℚ))
  pronostico_demanda : Option (List (String × Option ℚ))
  fuel_mix_pct : Option (List (String × Option ℚ))
  source_pages : Option (List (List Char))

/-- Model of the timestamp normalization of `parse_row` (lines 58-62):
`datetime.fromisoformat(x).isoformat()` is the identity on the canonical
ISO-8601-with-offset strings the scraper emits, and strings the stdlib cannot
parse fall back to `str(x)` — also the identity on strings. -/
def isoNormalize (s : List Char) : List Char :=
  s

/-- Embedding of `parse_row` (`pr_grid_logger.py` lines 54-89). -/
def parseRow (p : Payload) : Row :=
  let dg := p.detalles_generacion.getD []
  let pd := p.pronostico_demanda.getD []
  let fx := p.fuel_mix_pct.getD []
  { scraped_at_iso :=
      match p.scraped_at with
      | some s => isoNormalize s
      | none => []
    updated_label_raw :=
      match p.updated_label_raw with
      | none => some []
      | some v => v
    generacion_total_MW := pyGet dg "generacion_total_MW"
    capacidad_disponible_MW := pyGet dg "capacidad_disponible_MW"
    reserva_en_rotacion_MW := pyGet dg "reserva_en_rotacion_MW"
    reserva_operacional_MW := pyGet dg "reserva_operacional_MW"
    demanda_proxima_hora_MW := pyGet pd "proxima_hora_MW"
    demanda_maxima_hoy_MW := pyGet pd "maxima_hoy_MW"
    gas_natural_pct := pyGet fx "gas_natural"
    carbon_pct := pyGet fx "carbon"
    bunker_diesel_pct := pyGet fx "bunker_diesel"
    renovables_pct := pyGet fx "renovables"
    otros_pct := pyGet fx "otros"
    source_pages := List.intercalate [','] (p.source_pages.getD []) }

/-- Key lookup in the `readings` table. -/
def dbHasKey (db : List Row) (k : List Char) : Bool :=
  db.any (fun r => r.scraped_at_iso == k)

/-- Embedding of `write_sqlite` (lines 96-109): `INSERT OR IGNORE` keyed by
`scraped_at_iso`. -/
def writeSqlite (db : List Row) (r : Row) : List Row :=
  if dbHasKey db r.scraped_at_iso then db else db ++ [r]

/-- Embedding of `ensure_csv` (lines 22-28): create the file with its header
exactly once. -/
def ensureCsv : Option (List Row) → Option (List Row)
  | none => some []
  | some rs => some rs

/-- Embedding of `write_csv` (lines 91-94): ensure the file, then append the
row unconditionally. -/
def writeCsv (f : Option (List Row)) (r : Row) : Option (List Row) :=
  match ensureCsv f with
  | some rs => some (rs ++ [r])
  | none => none

/-- Number of data rows in the flat log (the header row not counted). -/
def csvRowCount : Option (List Row) → ℕ
  | none => 0
  | some rs => rs.length

/-- The input of one `process_once` cycle at the `json.loads` interface:
missing snapshot file, present-but-unparseable content, or a parsed
payload. -/
inductive IngestInput where
  | missing : IngestInput
  | malformed : IngestInput
  | payload : Payload → IngestInput

/-- What `process_once` reports: the warn-and-return of a missing file (line
113), the error printed to stderr on a parse failure (line 119), or a
completed ingestion. -/
inductive Report where
  | noFile : Report
  | parseError : Report
  | ingested : List Char → Report
deriving DecidableEq

/-- The two co-located sinks. -/
structure SinkState where
  db : List Row
  csv : Option (List Row)
deriving DecidableEq

/-- Embedding of `process_once` (`pr_grid_logger.py` lines 111-128): a
missing file returns without touching either sink; a parse failure is
reported and returns without touching either sink; otherwise the row is
written to SQLite and then appended to the CSV unconditionally. -/
def processOnce (inp : IngestInput) (st : SinkState) : SinkState × Report :=
  match inp with
  | .missing => (st, .noFile)
  | .malformed => (st, .parseError)
  | .payload p =>
    let row := parseRow p
    ({ db := writeSqlite st.db row, csv := writeCsv st.csv row },
      .ingested row.scraped_at_iso)

/-- The snapshot of end-to-end scenario 4: `scraped_at =
"2025-10-20T23:31:15-04:00"`, with representative field values. -/
def scenarioPayload : Payload :=
  { scraped_at := some (str "2025-10-20T23:31:15-04:00")
    updated_label_raw := some (some (str "10/20/2025 11:31:02 PM"))
    detalles_generacion := some
      [("generacion_total_MW", some 2129), ("capacidad_disponible_MW", some 2500),
       ("reserva_en_rotacion_MW", none), ("reserva_operacional_MW", some 371)]
    pronostico_demanda := some
      [("proxima_hora_MW", some 2100), ("maxima_hoy_MW", some 2300)]
    fuel_mix_pct := some
      [("gas_natural", some 43), ("carbon", some 20), ("bunker_diesel", some 18),
       ("renovables", some 15), ("otros", none)]
    source_pages := some
      [str "https://genera-pr.com/data-tr", str "https://genera-pr.com/data-generacion"] }

/-- C2 counterexample: the claim states `_to_float("1.234,56") == 1234.56`, but
`"1.234,56"` contains both a comma and a dot, so the code strips the comma and
parses `"1.23456"`, giving `1.23456` — not `1234.56`. -/
theorem c2_counterexample :
    toFloat (some (str "1.234,56")) = some (123456 / 100000 : ℚ) ∧
      (123456 / 100000 : ℚ) ≠ (1234.56 : ℚ) := by
  constructor
  · show some (ratOfParts (1, 23456, 5, none)) = some (123456 / 100000 : ℚ)
    norm_num [ratOfParts]
  · norm_num

/-- C2 (amended): the numeric normalizer maps `"1,234.56"` to `1234.56` and
`"2129"` to `2129.0` as claimed, but maps `"1.234,56"` to `1.23456` (comma
stripped as a thousands separator because both separators are present). -/
theorem c2_amended :
    toFloat (some (str "1,234.56")) = some (1234.56 : ℚ) ∧
      toFloat (some (str "1.234,56")) = some (1.23456 : ℚ) ∧
      toFloat (some (str "2129")) = some (2129 : ℚ) := by
  refine ⟨?_, ?_, ?_⟩
  · show some (ratOfParts (1234, 56, 2, none)) = some (1234.56 : ℚ)
    norm_num [ratOfParts]
  · show some (ratOfParts (1, 23456, 5, none)) = some (1.23456 : ℚ)
    norm_num [ratOfParts]
  · show some (ratOfParts (2129, 0, 0, none)) = some (2129 : ℚ)
    norm_num [ratOfParts]

/-- C9: `_to_float` is total — `None` and `""` give `None`, and whenever the
separator-normalized string does not parse as a float the result is `None`
rather than an exception, in both the `genera_scraper` and the
`genera_plants_scraper` copy. -/
theorem c9_to_float_total :
    toFloat none = none ∧
      toFloat (some (str "")) = none ∧
      toFloatPlants (str "") = none ∧
      (∀ s : List Char, pyFloat (toFloatNormalize s) = none → toFloat (some s) = none) ∧
      (∀ s : List Char, pyFloat (toFloatNormalize s) = none → toFloatPlants s = none) := by
  refine ⟨rfl, rfl, rfl, ?_, ?_⟩ <;>
    · intro s h
      by_cases hs : s.isEmpty <;> simp [toFloat, toFloatPlants, hs, h]

/-- C9 witness: the theorem applied at the concrete unparseable input
`"abc"`. -/
theorem c9_to_float_total_witness :
    toFloat (some (str "abc")) = none ∧ toFloatPlants (str "abc") = none :=
  ⟨c9_to_float_total.2.2.2.1 (str "abc") (by decide),
    c9_to_float_total.2.2.2.2 (str "abc") (by decide)⟩

/-! ### Dict lemmas -/

theorem pyGet_dictSet_self (d : List (String × Option ℚ)) (k : String) (v : Option ℚ) :
    pyGet (dictSet d k v) k = v := by
  induction d with
  | nil => simp [dictSet, pyGet]
  | cons p d ih =>
    obtain ⟨k₀, v₀⟩ := p
    by_cases h : k₀ = k
    · simp [dictSet, h, pyGet]
    · simp [dictSet, h, pyGet, ih]

theorem pyGet_dictSet_ne (d : List (String × Option ℚ)) (k k' : String) (v : Option ℚ)
    (h : k' ≠ k) : pyGet (dictSet d k' v) k = pyGet d k := by
  induction d with
  | nil => simp only [dictSet, pyGet, if_neg h]
  | cons p d ih =>
    obtain ⟨k₀, v₀⟩ := p
    simp only [dictSet]
    split
    · next h0 =>
      subst h0
      simp only [pyGet]
      rw [if_neg h, if_neg h]
    · next h0 =>
      simp only [pyGet]
      by_cases h1 : k₀ = k
      · rw [if_pos h1, if_pos h1]
      · rw [if_neg h1, if_neg h1, ih]

theorem dictKeys_dictSet (d : List (String × Option ℚ)) (k : String) (v : Option ℚ) :
    dictKeys (dictSet d k v) =
      if k ∈ dictKeys d then dictKeys d else dictKeys d ++ [k] := by
  induction d with
  | nil => simp [dictSet, dictKeys]
  | cons p d ih =>
    obtain ⟨k₀, v₀⟩ := p
    simp only [dictSet]
    split
    · next h =>
      subst h
      simp [dictKeys, List.mem_cons]
    · next h =>
      simp only [dictKeys, List.map_cons] at ih ⊢
      rw [ih]
      by_cases h1 : k ∈ List.map (fun x => x.1) d
      · rw [if_pos h1, if_pos (List.mem_cons_of_mem _ h1)]
      · have hn : ¬ k ∈ k₀ :: List.map (fun x => x.1) d := by
          simp only [List.mem_cons]
          rintro (he | hm)
          · exact h he.symm
          · exact h1 hm
        rw [if_neg h1, if_neg hn]
        rfl

/-! ### Key-set lemmas for the fuel-mix pass -/

theorem canonFuelLabel_mem (g : List Char) (k : String)
    (h : canonFuelLabel g = some k) : k ∈ dictKeys fuelInitDict := by
  unfold canonFuelLabel lookupLabel at h
  cases hf : labelNormalizeTable.find? (fun p => p.1 == normFuelLabel g) with
  | none => simp [hf] at h
  | some p =>
    have hp : p ∈ labelNormalizeTable := List.mem_of_find?_eq_some hf
    simp only [hf, Option.map_some', Option.some.injEq] at h
    subst h
    fin_cases hp <;> decide

theorem pyGet_applyFuelMatch_ne (d : List (String × Option ℚ))
    (m : List Char × List Char) (k : String) (h : canonFuelLabel m.1 ≠ some k) :
    pyGet (applyFuelMatch d m) k = pyGet d k := by
  unfold applyFuelMatch
  cases hc : canonFuelLabel m.1 with
  | none => rfl
  | some k' =>
    have hne : k' ≠ k := fun he => h (he ▸ hc)
    exact pyGet_dictSet_ne _ _ _ _ hne

theorem pyGet_foldl_applyFuelMatch (ms : List (List Char × List Char))
    (d : List (String × Option ℚ)) (k : String)
    (h : ∀ m ∈ ms, canonFuelLabel m.1 ≠ some k) :
    pyGet (ms.foldl applyFuelMatch d) k = pyGet d k := by
  induction ms generalizing d with
  | nil => rfl
  | cons m ms ih =>
    rw [List.foldl_cons, ih _ (fun m' hm' => h m' (List.mem_cons_of_mem _ hm')),
      pyGet_applyFuelMatch_ne _ _ _ (h m (List.mem_cons_self _ _))]

theorem dictKeys_applyFuelMatch (d : List (String × Option ℚ))
    (m : List Char × List Char) (h : dictKeys d = dictKeys fuelInitDict) :
    dictKeys (applyFuelMatch d m) = dictKeys fuelInitDict := by
  unfold applyFuelMatch
  cases hc : canonFuelLabel m.1 with
  | none => exact h
  | some k => rw [dictKeys_dictSet, h, if_pos (canonFuelLabel_mem _ _ hc)]

theorem dictKeys_foldl_applyFuelMatch (ms : List (List Char × List Char))
    (d : List (String × Option ℚ)) (h : dictKeys d = dictKeys fuelInitDict) :
    dictKeys (ms.foldl applyFuelMatch d) = dictKeys fuelInitDict := by
  induction ms generalizing d with
  | nil => exact h
  | cons m ms ih => rw [List.foldl_cons]; exact ih _ (dictKeys_applyFuelMatch _ _ h)

theorem dictKeys_parseFuelMix (t : List Char) :
    dictKeys (parseFuelMix t) = dictKeys fuelInitDict :=
  dictKeys_foldl_applyFuelMatch _ _ rfl

theorem dictKeys_foldl_update (items : List (String × Option ℚ))
    (d : List (String × Option ℚ)) (h : ∀ i ∈ items, i.1 ∈ dictKeys d) :
    dictKeys (items.foldl
      (fun d kv => if kv.2.isSome then dictSet d kv.1 kv.2 else d) d) = dictKeys d := by
  induction items generalizing d with
  | nil => rfl
  | cons i items ih =>
    rw [List.foldl_cons]
    have hstep : dictKeys (if i.2.isSome then dictSet d i.1 i.2 else d) = dictKeys d := by
      split
      · rw [dictKeys_dictSet, if_pos (h i (List.mem_cons_self _ _))]
      · rfl
    have hrest : ∀ i' ∈ items,
        i'.1 ∈ dictKeys (if i.2.isSome then dictSet d i.1 i.2 else d) := by
      rw [hstep]
      exact fun i' hi' => h i' (List.mem_cons_of_mem _ hi')
    rw [ih _ hrest, hstep]

theorem dictKeys_buildBuckets_fuelMix (m : List Char) :
    dictKeys (buildBuckets m).fuelMix = dictKeys fuelInitDict := by
  have h0 : dictKeys (fuelLabels.foldl (fun d s => dictSetdefault d s.2.2 none)
      ([] : List (String × Option ℚ))) = dictKeys fuelInitDict := rfl
  have hmem : ∀ i ∈ parseFuelMix m,
      i.1 ∈ dictKeys (fuelLabels.foldl (fun d s => dictSetdefault d s.2.2 none)
        ([] : List (String × Option ℚ))) := by
    intro i hi
    rw [h0, ← dictKeys_parseFuelMix m]
    exact List.mem_map_of_mem _ hi
  exact (dictKeys_foldl_update _ _ hmem).trans h0

/-! ### Key-set and preservation lemmas for the DOM fallback pass -/

theorem allLabels_key_routes : ∀ s ∈ allLabels,
    s.2.2 ∈ detalleKeys ∨ s.2.2 ∈ pronosticoKeys ∨ s.2.2 ∈ dictKeys fuelInitDict := by
  decide

theorem keys_fallbackStep (dom : List Char → List Char → Option (List Char))
    (b : Buckets) (s : List Char × List Char × String)
    (hs : s.2.2 ∈ detalleKeys ∨ s.2.2 ∈ pronosticoKeys ∨ s.2.2 ∈ dictKeys fuelInitDict)
    (h1 : dictKeys b.detalles = detalleKeys)
    (h2 : dictKeys b.pronostico = pronosticoKeys)
    (h3 : dictKeys b.fuelMix = dictKeys fuelInitDict) :
    dictKeys (fallbackStep dom b s).detalles = detalleKeys ∧
      dictKeys (fallbackStep dom b s).pronostico = pronosticoKeys ∧
      dictKeys (fallbackStep dom b s).fuelMix = dictKeys fuelInitDict := by
  unfold fallbackStep
  split
  · unfold bucketsSet
    by_cases hd : s.2.2 ∈ detalleKeys
    · rw [if_pos hd]
      exact ⟨by rw [dictKeys_dictSet, h1, if_pos hd], h2, h3⟩
    · rw [if_neg hd]
      by_cases hp : s.2.2 ∈ pronosticoKeys
      · rw [if_pos hp]
        exact ⟨h1, by rw [dictKeys_dictSet, h2, if_pos hp], h3⟩
      · rw [if_neg hp]
        have hf : s.2.2 ∈ dictKeys fuelInitDict := by
          rcases hs with h | h | h
          · exact absurd h hd
          · exact absurd h hp
          · exact h
        exact ⟨h1, h2, by rw [dictKeys_dictSet, h3, if_pos hf]⟩
  · exact ⟨h1, h2, h3⟩

theorem keys_fallbackFold (dom : List Char → List Char → Option (List Char))
    (specs : List (List Char × List Char × String)) (b : Buckets)
    (hspec : ∀ s ∈ specs,
      s.2.2 ∈ detalleKeys ∨ s.2.2 ∈ pronosticoKeys ∨ s.2.2 ∈ dictKeys fuelInitDict)
    (h1 : dictKeys b.detalles = detalleKeys)
    (h2 : dictKeys b.pronostico = pronosticoKeys)
    (h3 : dictKeys b.fuelMix = dictKeys fuelInitDict) :
    dictKeys ((specs.foldl (fallbackStep dom) b)).detalles = detalleKeys ∧
      dictKeys ((specs.foldl (fallbackStep dom) b)).pronostico = pronosticoKeys ∧
      dictKeys ((specs.foldl (fallbackStep dom) b)).fuelMix = dictKeys fuelInitDict := by
  induction specs generalizing b with
  | nil => exact ⟨h1, h2, h3⟩
  | cons s specs ih =>
    rw [List.foldl_cons]
    obtain ⟨g1, g2, g3⟩ :=
      keys_fallbackStep dom b s (hspec s (List.mem_cons_self _ _)) h1 h2 h3
    exact ih _ (fun s' hs' => hspec s' (List.mem_cons_of_mem _ hs')) g1 g2 g3

theorem bucketsPyGet_bucketsSet_ne (b : Buckets) (k k' : String) (v : Option ℚ)
    (h : k' ≠ k) : bucketsPyGet (bucketsSet b k' v) k = bucketsPyGet b k := by
  unfold bucketsPyGet bucketsSet
  by_cases h1 : k' ∈ detalleKeys <;> by_cases h2 : k ∈ detalleKeys <;>
    by_cases h3 : k' ∈ pronosticoKeys <;> by_cases h4 : k ∈ pronosticoKeys <;>
      simp [h1, h2, h3, h4, pyGet_dictSet_ne _ _ _ _ h]

theorem bucketsPyGet_fallback_preserve (dom : List Char → List Char → Option (List Char))
    (specs : List (List Char × List Char × String)) (b : Buckets) (k : String) (v : ℚ)
    (h : bucketsPyGet b k = some v) :
    bucketsPyGet (specs.foldl (fallbackStep dom) b) k = some v := by
  induction specs generalizing b with
  | nil => exact h
  | cons s specs ih =>
    rw [List.foldl_cons]
    apply ih
    unfold fallbackStep
    split
    · next hg =>
      have hne : s.2.2 ≠ k := by
        intro he
        rw [he, h] at hg
        simp at hg
      rw [bucketsPyGet_bucketsSet_ne _ _ _ _ hne]
      exact h
    · exact h

/-! ### Claims about the extraction stages -/

/-- C3 counterexample: in the input text the fuel label `Gas Natural` occurs
twice, first with value 10 and then with value 20; `parse_fuel_mix` keeps 20,
the value of the last occurrence — not the first as claimed. -/
theorem c3_counterexample :
    pyGet (parseFuelMix (str "Gas Natural: 10 %\nGas Natural: 20 %")) "gas_natural" =
        some (20 : ℚ) ∧ (20 : ℚ) ≠ (10 : ℚ) := by
  constructor
  · show some (ratOfParts (20, 0, 0, none)) = some (20 : ℚ)
    norm_num [ratOfParts]
  · norm_num

/-- C3 (amended): when the same fuel label occurs more than once in the input
text, `parse_fuel_mix` keeps the value of the *last* occurrence (each match
overwrites the key); and once a key holds a value, the DOM-proximity fallback
pass is skipped for that key only, leaving keys resolved at earlier stages
unchanged. -/
theorem c3_amended :
    (∀ (text : List Char) (ms₁ ms₂ : List (List Char × List Char))
        (lbl num : List Char) (k : String),
        fuelFinditer text = ms₁ ++ (lbl, num) :: ms₂ →
        canonFuelLabel lbl = some k →
        (∀ m ∈ ms₂, canonFuelLabel m.1 ≠ some k) →
        pyGet (parseFuelMix text) k = toFloat (some num)) ∧
      (∀ (ok : Bool) (dom : List Char → List Char → Option (List Char))
          (b : Buckets) (k : String) (v : ℚ),
          bucketsPyGet b k = some v →
          bucketsPyGet (applyFallback ok dom b) k = some v) := by
  constructor
  · intro text ms₁ ms₂ lbl num k hsplit hcanon hrest
    unfold parseFuelMix
    rw [hsplit, List.foldl_append, List.foldl_cons,
      pyGet_foldl_applyFuelMatch _ _ _ hrest]
    have happ : ∀ d, applyFuelMatch d (lbl, num) = dictSet d k (toFloat (some num)) := by
      intro d
      unfold applyFuelMatch
      simp [hcanon]
    rw [happ, pyGet_dictSet_self]
  · intro ok dom b k v h
    unfold applyFallback
    split
    · exact bucketsPyGet_fallback_preserve _ _ _ _ _ h
    · exact h

/-- C3 witness: the amended theorem applied at concrete inputs — the
two-occurrence text (last value 20 wins), and a fallback pass over a bucket
state where `carbon` is already resolved to 7 and stays 7. -/
theorem c3_amended_witness :
    pyGet (parseFuelMix (str "Gas Natural: 10 %\nGas Natural: 20 %")) "gas_natural" =
        toFloat (some (str "20")) ∧
      bucketsPyGet
        (applyFallback true (fun _ _ => some (str "7"))
          { detalles := [("generacion_total_MW", none)], pronostico := [],
            fuelMix := [("carbon", some 7)] }) "carbon" = some (7 : ℚ) := by
  constructor
  · exact c3_amended.1 (str "Gas Natural: 10 %\nGas Natural: 20 %")
      [(str "Gas Natural", str "10")] [] (str "Gas Natural") (str "20") "gas_natural"
      (by decide) (by decide) (by simp)
  · exact c3_amended.2 true _ _ "carbon" 7 rfl

/-- C5: for every input (page texts, Porcentajes text, fallback outcome and
DOM oracle), the three output mappings of `scrape_once` have key lists exactly
equal to the canonical keys of their catalogs — four detalle keys, two
pronostico keys, five distinct fuel keys — so every unresolved field is
present and bound to null rather than omitted. -/
theorem c5_catalog_closure (sa : String) (pts : List (List Char)) (porc : List Char)
    (ok : Bool) (dom : List Char → List Char → Option (List Char)) :
    dictKeys (scrapeExtract sa pts porc ok dom).detalles_generacion =
        ["generacion_total_MW", "capacidad_disponible_MW", "reserva_en_rotacion_MW",
          "reserva_operacional_MW"] ∧
      dictKeys (scrapeExtract sa pts porc ok dom).pronostico_demanda =
        ["proxima_hora_MW", "maxima_hoy_MW"] ∧
      dictKeys (scrapeExtract sa pts porc ok dom).fuel_mix_pct =
        ["gas_natural", "carbon", "bunker_diesel", "renovables", "otros"] := by
  have key : ∀ m : List Char,
      dictKeys (applyFallback ok dom (buildBuckets m)).detalles = detalleKeys ∧
        dictKeys (applyFallback ok dom (buildBuckets m)).pronostico = pronosticoKeys ∧
        dictKeys (applyFallback ok dom (buildBuckets m)).fuelMix =
          dictKeys fuelInitDict := by
    intro m
    have h1 : dictKeys (buildBuckets m).detalles = detalleKeys := rfl
    have h2 : dictKeys (buildBuckets m).pronostico = pronosticoKeys := rfl
    have h3 := dictKeys_buildBuckets_fuelMix m
    unfold applyFallback
    split
    · exact keys_fallbackFold dom _ _
        (fun s hs => allLabels_key_routes s (List.mem_of_mem_filter hs)) h1 h2 h3
    · exact ⟨h1, h2, h3⟩
  exact ⟨(key _).1, (key _).2.1, (key _).2.2⟩

/-- C6: the label canonicalization maps both spelling variants of the
bunker/diesel label to the key `bunker_diesel`; any label whose normalized
form is not in the table yields null (no exception — the lookup is total);
and the end-to-end scenario text yields `bunker_diesel = 18.5`. -/
theorem c6_label_canonicalization :
    canonFuelLabel (str "Bunker/Diésel") = some "bunker_diesel" ∧
      canonFuelLabel (str "Bunker / Diésel") = some "bunker_diesel" ∧
      (∀ g : List Char, (∀ p ∈ labelNormalizeTable, p.1 ≠ normFuelLabel g) →
        canonFuelLabel g = none) ∧
      pyGet (parseFuelMix (str "Bunker / Diésel: 18,5 %")) "bunker_diesel" =
        some (18.5 : ℚ) := by
  refine ⟨by decide, by decide, ?_, ?_⟩
  · intro g h
    unfold canonFuelLabel lookupLabel
    have hf : labelNormalizeTable.find? (fun p => p.1 == normFuelLabel g) = none :=
      List.find?_eq_none.mpr (fun p hp => by simpa using h p hp)
    rw [hf]
    rfl
  · show some (ratOfParts (18, 5, 1, none)) = some (18.5 : ℚ)
    norm_num [ratOfParts]

/-- C6 witness: the unknown-label conjunct of the theorem applied at the
concrete label `Combustóleo`, which is not in the table. -/
theorem c6_label_canonicalization_witness :
    canonFuelLabel (str "Combustóleo") = none :=
  c6_label_canonicalization.2.2.1 (str "Combustóleo") (by decide)

/-- C7: `harvest_for` reports as `total_MW` the sum of all successfully
normalized MW values of the detail text when at least one resolved and null
when none did, and the end-to-end plant blob yields the two units
`(Unidad 1, 250.0)`, `(Unidad 2, 230.5)` with total 480.5. -/
theorem c7_harvest_total :
    (∀ title t : List Char,
        (harvestFor title t).total_MW =
          if extractMwValues t = [] then none else some (extractMwValues t).sum) ∧
      harvestFor (str "San Juan") (str "Unidad 1: 250 MW\nUnidad 2: 230,5 MW") =
        { nombre := str "San Juan"
          total_MW := some (480.5 : ℚ)
          unidades := [(str "Unidad 1", some (250 : ℚ)),
            (str "Unidad 2", some (230.5 : ℚ))] } := by
  constructor
  · intro title t
    show harvestTotalMW t = _
    unfold harvestTotalMW
    by_cases h : extractMwValues t = [] <;> simp [h]
  · have h1 : harvestFor (str "San Juan") (str "Unidad 1: 250 MW\nUnidad 2: 230,5 MW") =
        { nombre := str "San Juan"
          total_MW := some ([ratOfParts (250, 0, 0, none),
            ratOfParts (230, 5, 1, none)].sum)
          unidades := [(str "Unidad 1", some (ratOfParts (250, 0, 0, none))),
            (str "Unidad 2", some (ratOfParts (230, 5, 1, none)))] } := rfl
    rw [h1]
    simp only [PlantReading.mk.injEq, List.sum_cons, List.sum_nil]
    norm_num [ratOfParts]

/-! ### Claims about the ingestion sink -/

/-- C4: when a row's `scraped_at_iso` primary key already exists in the
`readings` table, `write_sqlite`'s `INSERT OR IGNORE` is a no-op: the table —
including the originally stored row for that key — is unchanged, and no
second row is created. -/
theorem c4_write_sqlite_noop (db : List Row) (r : Row)
    (h : dbHasKey db r.scraped_at_iso = true) : writeSqlite db r = db := by
  simp [writeSqlite, h]

/-- C4 witness: the theorem applied to a table already holding the scenario
row. -/
theorem c4_write_sqlite_noop_witness :
    dbHasKey [parseRow scenarioPayload] (parseRow scenarioPayload).scraped_at_iso = true ∧
      writeSqlite [parseRow scenarioPayload] (parseRow scenarioPayload) =
        [parseRow scenarioPayload] :=
  ⟨by decide, c4_write_sqlite_noop _ _ (by decide)⟩

/-- C1 counterexample: ingesting the scenario snapshot
(`scraped_at = "2025-10-20T23:31:15-04:00"`) twice from empty sinks leaves one
store row but *two* flat-log rows — `process_once` appends to the CSV
unconditionally, not only when the store inserts, so the claimed flat-log
row count of 1 is wrong. -/
theorem c1_counterexample :
    (processOnce (.payload scenarioPayload)
        ((processOnce (.payload scenarioPayload) ⟨[], none⟩).1)).1.db.length = 1 ∧
      csvRowCount (processOnce (.payload scenarioPayload)
        ((processOnce (.payload scenarioPayload) ⟨[], none⟩).1)).1.csv = 2 ∧
      (2 : ℕ) ≠ 1 := by
  refine ⟨by decide, rfl, by norm_num⟩

/-- C1 (amended): ingesting the same snapshot payload twice leaves exactly
one row for its `scraped_at` in the keyed SQLite store (the duplicate insert
is ignored), but the flat CSV log is appended on every successfully parsed
payload regardless of whether the store inserted, so both ingestions append
and the flat-log row count is 2. -/
theorem c1_amended (p : Payload) :
    (processOnce (.payload p)
        ((processOnce (.payload p) ⟨[], none⟩).1)).1.db.length = 1 ∧
      csvRowCount (processOnce (.payload p)
        ((processOnce (.payload p) ⟨[], none⟩).1)).1.csv = 2 := by
  constructor
  · show (writeSqlite (writeSqlite [] (parseRow p)) (parseRow p)).length = 1
    simp [writeSqlite, dbHasKey]
  · rfl

/-- C8: `process_once` on a malformed (non-JSON-parseable) payload reports the
parse failure and returns with both sinks untouched; a missing input file is a
no-op for the cycle, reported as a warning rather than a failure. -/
theorem c8_malformed_rejected (st : SinkState) :
    processOnce .malformed st = (st, .parseError) ∧
      processOnce .missing st = (st, .noFile) :=
  ⟨rfl, rfl⟩

/-- C10: the body text captured after re-navigating to the first page and
clicking "Porcentajes" never contributes to field extraction — `merged_text`
is reassigned to the join of the original page texts immediately after the
append, so the extraction result does not depend on the Porcentajes text. -/
theorem c10_porcentajes_text_unused (sa : String) (pts : List (List Char))
    (p₁ p₂ : List Char) (ok : Bool)
    (dom : List Char → List Char → Option (List Char)) :
    scrapeExtract sa pts p₁ ok dom = scrapeExtract sa pts p₂ ok dom :=
  rfl

end FuelHedge
